import Mathlib

/-
Verification development for the autowelcome repository.

The asynchronous job-processing core is shallowly embedded:
  * `job_manager.js` becomes a pure association-list store (`JobStore`) with
    the operations `createJob`, `getJob`, `updateJobStatus`, `addProcessedUser`,
    `addFailedUser`, `setTotalFollowers`, `completeJob`, `failJob`,
    `cleanupOldJobs`.  JavaScript `Date` values are modelled as `Nat`
    millisecond timestamps supplied by the caller; in-place mutation of a
    fetched job object becomes get-modify-set on the store value.
  * the delivery loop and its reconnection supervisor
    (`processFollowersJob` in the puppeteer variant of the bot) become a
    recursive function over the candidate list, with the environment (browser
    connectivity, send outcomes and durations, random pacing values, Mongo
    insert failures) supplied by an oracle record.
  * `checkNotifications` follower filtering and the `initBrowser` retry loop
    become standalone functions.
-/

set_option autoImplicit false

namespace Autowelcome

/-- Per-user outcome record pushed by the delivery loop; mirrors the
`userData` objects built in `processFollowersJob` (fields `username`,
`status`, `timestamp` plus optional `reason` or `error`). -/
structure UserData where
  username : String
  status : String
  timestamp : Nat
  reason : Option String := none
  error : Option String := none
deriving DecidableEq

/-- Mirror of the `progress` object `{ total, processed }` of a job. -/
structure Progress where
  total : Nat
  processed : Nat
deriving DecidableEq

/-- Mirror of the result object passed to `completeJob` by
`processFollowersJob` (`{ processedUsers, failedUsers, summary }`). -/
structure JobResult where
  processedUsers : List UserData
  failedUsers : List UserData
  summary : String
deriving DecidableEq

/-- Mirror of a job record of `job_manager.js`.  `createJob` initialises
`id`, `status`, `created`, `params`, `result`, `processedUsers`,
`failedUsers`, `error` and `progress`; the remaining fields (`updated`,
`completed`, `message`, `warning`, `info`) start absent (`none`) and are
assigned later by `updateJobStatus` / `completeJob` / `failJob` or by a
data patch.  `params` is kept opaque as a `String`. -/
structure Job where
  id : String
  status : String
  created : Nat
  params : String
  result : Option JobResult
  processedUsers : List UserData
  failedUsers : List UserData
  error : Option String
  progress : Progress
  updated : Option Nat := none
  completed : Option Nat := none
  message : Option String := none
  warning : Option String := none
  info : Option String := none
deriving DecidableEq

/-- Mirror of the dynamic `data` object passed to `updateJobStatus`.  The
JavaScript code copies every key of `data` onto the job
(`Object.keys(data).forEach(key => job[key] = data[key])`); the patch is
modelled as one optional assignment per field name that occurs in the
codebase.  A `some v` on a nullable field assigns the value `v`. -/
structure JobPatch where
  id : Option String := none
  status : Option String := none
  created : Option Nat := none
  params : Option String := none
  result : Option (Option JobResult) := none
  processedUsers : Option (List UserData) := none
  failedUsers : Option (List UserData) := none
  error : Option (Option String) := none
  progress : Option Progress := none
  updated : Option Nat := none
  completed : Option Nat := none
  message : Option String := none
  warning : Option String := none
  info : Option String := none
deriving DecidableEq

/-- Application of a data patch to a job: each key present in the patch is
copied onto the job, all other fields are untouched.  This is the loop
`Object.keys(data).forEach(key => job[key] = data[key])`. -/
def applyPatch (d : JobPatch) (j : Job) : Job where
  id := d.id.getD j.id
  status := d.status.getD j.status
  created := d.created.getD j.created
  params := d.params.getD j.params
  result := d.result.getD j.result
  processedUsers := d.processedUsers.getD j.processedUsers
  failedUsers := d.failedUsers.getD j.failedUsers
  error := d.error.getD j.error
  progress := d.progress.getD j.progress
  updated := match d.updated with | some v => some v | none => j.updated
  completed := match d.completed with | some v => some v | none => j.completed
  message := match d.message with | some v => some v | none => j.message
  warning := match d.warning with | some v => some v | none => j.warning
  info := match d.info with | some v => some v | none => j.info

/-- The in-memory job table (`const jobs = new Map()`), as an association
list from job id to job record. -/
abbrev JobStore := List (String × Job)

/-- Mirror of `getJob` (`jobs.get(jobId) || null`). -/
def getJob : JobStore → String → Option Job
  | [], _ => none
  | (k, j) :: rest, jobId => if k = jobId then some j else getJob rest jobId

/-- Replacement of the entry of a key, used to model in-place mutation of
the job object fetched from the map. -/
def setJob : JobStore → String → Job → JobStore
  | [], _, _ => []
  | (k, j0) :: rest, jobId, j =>
      if k = jobId then (k, j) :: setJob rest jobId j
      else (k, j0) :: setJob rest jobId j

/-- The fresh record inserted by `createJob`. -/
def initialJob (params : String) (jobId : String) (now : Nat) : Job :=
  { id := jobId
    status := "queued"
    created := now
    params := params
    result := none
    processedUsers := []
    failedUsers := []
    error := none
    progress := { total := 0, processed := 0 } }

/-- Mirror of `createJob`: inserts a fresh record in the `queued` state.
The random id from `generateJobId` and the `new Date()` value are supplied
by the caller. -/
def createJob (s : JobStore) (params : String) (jobId : String) (now : Nat) : JobStore :=
  (jobId, initialJob params jobId now) :: s

/-- Mirror of `updateJobStatus`: for a known id, sets `status`, bumps
`updated`, then copies every key of `data` onto the job and returns `true`;
for an unknown id, returns `false` and leaves the store unchanged. -/
def updateJobStatus (s : JobStore) (jobId : String) (status : String)
    (data : JobPatch) (now : Nat) : JobStore × Bool :=
  match getJob s jobId with
  | none => (s, false)
  | some job =>
      (setJob s jobId (applyPatch data { job with status := status, updated := some now }), true)

/-- Mirror of `addProcessedUser`: pushes the record and bumps
`progress.processed`. -/
def addProcessedUser (s : JobStore) (jobId : String) (userData : UserData) : JobStore × Bool :=
  match getJob s jobId with
  | none => (s, false)
  | some job =>
      (setJob s jobId
        { job with
          processedUsers := job.processedUsers ++ [userData]
          progress := { job.progress with processed := job.progress.processed + 1 } }, true)

/-- Mirror of `addFailedUser`: pushes the record and bumps
`progress.processed`. -/
def addFailedUser (s : JobStore) (jobId : String) (userData : UserData) : JobStore × Bool :=
  match getJob s jobId with
  | none => (s, false)
  | some job =>
      (setJob s jobId
        { job with
          failedUsers := job.failedUsers ++ [userData]
          progress := { job.progress with processed := job.progress.processed + 1 } }, true)

/-- Mirror of `setTotalFollowers`. -/
def setTotalFollowers (s : JobStore) (jobId : String) (total : Nat) : JobStore × Bool :=
  match getJob s jobId with
  | none => (s, false)
  | some job =>
      (setJob s jobId { job with progress := { job.progress with total := total } }, true)

/-- Mirror of `completeJob`: unconditionally sets `status`, `result` and
`completed` for a known id. -/
def completeJob (s : JobStore) (jobId : String) (result : JobResult) (now : Nat) :
    JobStore × Bool :=
  match getJob s jobId with
  | none => (s, false)
  | some job =>
      (setJob s jobId { job with status := "completed", result := some result, completed := some now }, true)

/-- Mirror of `failJob`: unconditionally sets `status`, `error` and
`completed` for a known id. -/
def failJob (s : JobStore) (jobId : String) (error : String) (now : Nat) : JobStore × Bool :=
  match getJob s jobId with
  | none => (s, false)
  | some job =>
      (setJob s jobId { job with status := "failed", error := some error, completed := some now }, true)

/-- Mirror of `cleanupOldJobs`: one sweep deletes every job whose age in
hours, measured from `completed` when set and from `created` otherwise,
strictly exceeds `maxAgeHours`.  The float comparison
`(now - jobDate) / 3600000 > maxAgeHours` is exact, so it is modelled over
the integers as `now - jobDate > maxAgeHours * 3600000`. -/
def cleanupOldJobs (s : JobStore) (maxAgeHours : Nat) (now : Nat) : JobStore :=
  s.filter fun p =>
    !(decide (((maxAgeHours : Int) * 3600000) < (now : Int) - ((p.2.completed.getD p.2.created : Nat) : Int)))

/-- Store-operation alphabet for reasoning about sequences of job-store
calls (the mutators named by the progress claims). -/
inductive StoreOp where
  | addProcessed (jobId : String) (u : UserData)
  | addFailed (jobId : String) (u : UserData)
  | setTotal (jobId : String) (n : Nat)
  | updStatus (jobId : String) (status : String) (data : JobPatch) (now : Nat)
deriving DecidableEq

/-- Interpretation of one store operation. -/
def applyOp (s : JobStore) : StoreOp → JobStore
  | .addProcessed jobId u => (addProcessedUser s jobId u).1
  | .addFailed jobId u => (addFailedUser s jobId u).1
  | .setTotal jobId n => (setTotalFollowers s jobId n).1
  | .updStatus jobId st d t => (updateJobStatus s jobId st d t).1

/-- Interpretation of a sequence of store operations, first operation
first. -/
def applyOps (s : JobStore) : List StoreOp → JobStore
  | [] => s
  | op :: rest => applyOps (applyOp s op) rest

/-- The `progress.processed` counter of a job, `0` when the job is
absent. -/
def processedOf (s : JobStore) (jobId : String) : Nat :=
  ((getJob s jobId).map fun j => j.progress.processed).getD 0

/-- A store operation whose data patch does not assign the `progress`
field (every patch actually built by the bot only assigns `warning`,
`message` or `info`). -/
def keepsProgressKey : StoreOp → Prop
  | .updStatus _ _ d _ => d.progress = none
  | _ => True

instance : DecidablePred keepsProgressKey := by
  intro op
  cases op <;> simp only [keepsProgressKey] <;> infer_instance

/-- Durable tuple of the Processed-Record Store: one Mongo document
`{ followerUsername, accountOwner, processedAt }`. -/
structure ProcessedRecord where
  followerUsername : String
  accountOwner : String
  processedAt : Nat
deriving DecidableEq

/-- Mirror of the `collection.findOne({ followerUsername, accountOwner })`
lookup used by `checkNotifications`: an erroring lookup is `.error ()`, a
successful one reports whether a record for the pair exists. -/
def mongoFindOne (records : List ProcessedRecord) (errs : String → Bool)
    (accountOwner : String) (username : String) : Except Unit Bool :=
  if errs username then .error ()
  else .ok (records.any fun r => r.followerUsername = username && r.accountOwner = accountOwner)

/-- Mirror of the filtering loop of `checkNotifications`: a username is
kept when the store lookup finds no record, and also (fail open) when the
lookup errors. -/
def filterUnprocessed (findOne : String → Except Unit Bool) : List String → List String
  | [] => []
  | u :: rest =>
      match findOne u with
      | .ok true => filterUnprocessed findOne rest
      | .ok false => u :: filterUnprocessed findOne rest
      | .error _ => u :: filterUnprocessed findOne rest

/-- Mirror of the tail of `checkNotifications`: with a configured
collection the scanned identities are filtered against the store, without
one they are returned unfiltered.  `newFollowers` is the deduplicated
identity list extracted from the notification feed. -/
def checkNotificationsFilter (collection : Option (String → Except Unit Bool))
    (newFollowers : List String) : List String :=
  match collection with
  | some findOne => filterUnprocessed findOne newFollowers
  | none => newFollowers

/-- Mirror of the retry loop of `initBrowser`.  `attempts k` is the outcome
of attempt number `k` (zero-based): the whole body of the `while` round,
ending in a session handle or a thrown error.  The function returns the
overall outcome, the list of inter-attempt delays in order, and the number
of attempts performed.  `fuel` is `maxRetries - retryCount`, so the
recursion mirrors `while (retryCount < maxRetries)`. -/
def initBrowserGo (attempts : Nat → Except String Nat) :
    Nat → Nat → Except String Nat × List Nat × Nat
  | _, 0 => (.error "loop exited", [], 0)
  | retryCount, fuel + 1 =>
      match attempts retryCount with
      | .ok b => (.ok b, [], 1)
      | .error e =>
          if retryCount + 1 ≥ 5 then
            (.error ("Failed to initialize browser after 5 attempts: " ++ e), [], 1)
          else
            let rest := initBrowserGo attempts (retryCount + 1) fuel
            (rest.1, 8000 * (retryCount + 1) :: rest.2.1, rest.2.2 + 1)

/-- Mirror of `initBrowser`: `maxRetries = 5`, starting from
`retryCount = 0`; the delay before the next attempt is
`8000 * retryCount` after the increment. -/
def initBrowser (attempts : Nat → Except String Nat) : Except String Nat × List Nat × Nat :=
  initBrowserGo attempts 0 5

/-- Observable events of one job run: status values written through the
job manager, and sleeps (milliseconds). -/
inductive Ev where
  | status (s : String)
  | sleep (ms : Nat)
deriving DecidableEq

/-- The status events of a trace, in order. -/
def statusesOf (evs : List Ev) : List String :=
  evs.filterMap fun e => match e with | .status s => some s | .sleep _ => none

/-- The sleep events of a trace, in order. -/
def sleepsOf (evs : List Ev) : List Nat :=
  evs.filterMap fun e => match e with | .sleep ms => some ms | .status _ => none

/-- Environment oracle for one run of the delivery loop.  Index `i` is the
candidate position in the loop.  `drop i` (resp. `dropAfter i`) reports the
session as disconnected at the liveness check of iteration `i` (resp. at
the pacing-delay check at the bottom of iteration `i`); `sendMs i` is the
wall time of the send attempt; `send i` its result when it settles before
the timeout; `rand i` feeds `Math.random()`; `insertFail u` makes the
best-effort Mongo insert for `u` error; `reconnectOk i` and `reconnectErr i`
describe the outcome of a reconnection attempt; `nowIso i` is the `Date`
value drawn at iteration `i`. -/
structure DriverOracle where
  drop : Nat → Bool
  dropAfter : Nat → Bool
  reconnectOk : Nat → Bool
  reconnectErr : Nat → String
  sendMs : Nat → Nat
  send : Nat → Except String Bool
  rand : Nat → Nat
  insertFail : String → Bool
  nowIso : Nat → Nat

/-- The send attempt raced against the fixed two-minute timer
(`Promise.race([messagePromise, timeoutPromise])` with 120000 ms): when the
attempt takes longer than the timer, the race rejects with the timeout
error, which is indistinguishable from a driver-thrown error. -/
def raceSend (o : DriverOracle) (i : Nat) : Except String Bool :=
  if 120000 < o.sendMs i then .error "Message sending timeout" else o.send i

/-- Prefix test on character lists. -/
def charPrefix : List Char → List Char → Bool
  | [], _ => true
  | _ :: _, [] => false
  | p :: ps, c :: cs => p == c && charPrefix ps cs

/-- Occurrence test on character lists: the pattern occurs at some
position of the text. -/
def charContains (pat : List Char) : List Char → Bool
  | [] => charPrefix pat []
  | c :: cs => charPrefix pat (c :: cs) || charContains pat cs

/-- Substring test (`String.prototype.includes`): the pattern occurs
somewhere in the string. -/
def containsSubstr (s pat : String) : Bool :=
  charContains pat.data s.data

/-- The connectivity-error signature test of the delivery loop
(`messageError.message.includes(...)` over the four patterns). -/
def isConnectivityError (msg : String) : Bool :=
  containsSubstr msg "socket hang up" || containsSubstr msg "WebSocket" ||
    containsSubstr msg "target closed" || containsSubstr msg "connection"

/-- Mirror of `markUserAsProcessed`: without a collection nothing is
recorded; with one, `insertOne` appends a record unless the insert errors;
the function reports `true` in every case (a write failure is non-fatal). -/
def markUserAsProcessed (collection : Option (List ProcessedRecord))
    (insertFail : String → Bool) (followerUsername accountOwner : String) (now : Nat) :
    Option (List ProcessedRecord) × Bool :=
  match collection with
  | none => (none, true)
  | some recs =>
      if insertFail followerUsername then (some recs, true)
      else (some (recs ++ [⟨followerUsername, accountOwner, now⟩]), true)

/-- In-memory state threaded through the delivery loop: the job store, the
Processed-Record Store contents, the tracked session connectivity, the two
local outcome arrays, and the event trace. -/
structure LoopState where
  store : JobStore
  records : Option (List ProcessedRecord)
  connected : Bool
  processedUsers : List UserData
  failedUsers : List UserData
  trace : List Ev
deriving DecidableEq

/-- Outcome classification of one send attempt on the main path of the
loop (part of `processFollowersJob`): success records the user and appends
to `processedUsers`; a soft failure records the user and appends to
`failedUsers` with reason `Message sending failed`; a thrown error appends
to `failedUsers` with the error text, records the user, and, when the
message matches the connectivity signature, marks the session
disconnected. -/
def classifyMain (o : DriverOracle) (i : Nat) (jobId accountOwner : String)
    (u : String) (st : LoopState) : LoopState :=
  match raceSend o i with
  | .ok true =>
      let recs := (markUserAsProcessed st.records o.insertFail u accountOwner (o.nowIso i)).1
      let ud : UserData := { username := u, status := "success", timestamp := o.nowIso i }
      let s1 := (addProcessedUser st.store jobId ud).1
      { st with
        records := recs
        processedUsers := st.processedUsers ++ [ud]
        store := s1 }
  | .ok false =>
      let recs := (markUserAsProcessed st.records o.insertFail u accountOwner (o.nowIso i)).1
      let ud : UserData :=
        { username := u, status := "failed", timestamp := o.nowIso i
          reason := some "Message sending failed" }
      let s1 := (addFailedUser st.store jobId ud).1
      { st with
        records := recs
        failedUsers := st.failedUsers ++ [ud]
        store := s1 }
  | .error m =>
      let ud : UserData :=
        { username := u, status := "failed", timestamp := o.nowIso i, error := some m }
      let s1 := (addFailedUser st.store jobId ud).1
      let recs := (markUserAsProcessed st.records o.insertFail u accountOwner (o.nowIso i)).1
      { st with
        records := recs
        failedUsers := st.failedUsers ++ [ud]
        store := s1
        connected := if isConnectivityError m then false else st.connected }

/-- Outcome classification of the send attempt performed right after a
successful reconnection (the copy of the classification inside the
reconnect branch): same bookkeeping, with the failure reason string
`Message sending failed after reconnection`, and without the
connectivity-signature disconnect. -/
def classifyReconn (o : DriverOracle) (i : Nat) (jobId accountOwner : String)
    (u : String) (st : LoopState) : LoopState :=
  match raceSend o i with
  | .ok true =>
      let recs := (markUserAsProcessed st.records o.insertFail u accountOwner (o.nowIso i)).1
      let ud : UserData := { username := u, status := "success", timestamp := o.nowIso i }
      let s1 := (addProcessedUser st.store jobId ud).1
      { st with
        records := recs
        processedUsers := st.processedUsers ++ [ud]
        store := s1 }
  | .ok false =>
      let recs := (markUserAsProcessed st.records o.insertFail u accountOwner (o.nowIso i)).1
      let ud : UserData :=
        { username := u, status := "failed", timestamp := o.nowIso i
          reason := some "Message sending failed after reconnection" }
      let s1 := (addFailedUser st.store jobId ud).1
      { st with
        records := recs
        failedUsers := st.failedUsers ++ [ud]
        store := s1 }
  | .error m =>
      let ud : UserData :=
        { username := u, status := "failed", timestamp := o.nowIso i, error := some m }
      let s1 := (addFailedUser st.store jobId ud).1
      let recs := (markUserAsProcessed st.records o.insertFail u accountOwner (o.nowIso i)).1
      { st with
        records := recs
        failedUsers := st.failedUsers ++ [ud]
        store := s1 }

/-- Result of one iteration of the delivery loop: proceed to the next
candidate, or abort the run with a thrown message (the reconnection
exhaustion path). -/
inductive StepOut where
  | next (s : LoopState)
  | aborted (s : LoopState) (thrownMsg : String)
deriving DecidableEq

/-- One iteration of the delivery loop for candidate `u` at position `i`
out of `total`.  Liveness check first: when the session is disconnected the
job enters `reconnecting`; a successful reconnection returns the status to
`sending_messages` and attempts the current candidate with the new session
(the `continue` statement then skips the pacing delay); a failed
reconnection fails the job with the partial-completion message and throws.
On the main path the attempt is raced against the timeout, classified, and
followed by the pacing delay: `5000 + Math.floor(Math.random() * 5000)` ms
while the session is connected, a fixed `3000` ms otherwise. -/
def loopStep (o : DriverOracle) (jobId accountOwner : String) (total : Nat)
    (i : Nat) (u : String) (st0 : LoopState) : StepOut :=
  let conn := st0.connected && !(o.drop i)
  let st := { st0 with connected := conn }
  if conn then
    let st1 := classifyMain o i jobId accountOwner u st
    let connBottom := st1.connected && !(o.dropAfter i)
    let st2 := { st1 with connected := connBottom }
    let delay := if connBottom then 5000 + o.rand i % 5000 else 3000
    .next { st2 with trace := st2.trace ++ [Ev.sleep delay] }
  else
    let s1 := (updateJobStatus st.store jobId "reconnecting"
      { warning := some "Connection to browser lost, attempting to reconnect..." } (o.nowIso i)).1
    let st1 := { st with store := s1, trace := st.trace ++ [Ev.status "reconnecting"] }
    if o.reconnectOk i then
      let s2 := (updateJobStatus st1.store jobId "sending_messages"
        { info := some "Reconnected successfully, continuing message sending" } (o.nowIso i)).1
      let st2 := { st1 with
        store := s2
        connected := true
        trace := st1.trace ++ [Ev.status "sending_messages"] }
      .next (classifyReconn o i jobId accountOwner u st2)
    else
      let msg := "Process interrupted after " ++ toString st1.processedUsers.length ++
        " successful messages. " ++ toString (total - i) ++ " followers were not processed."
      let s2 := (failJob st1.store jobId ("Connection error: " ++ o.reconnectErr i ++ ". " ++ msg)
        (o.nowIso i)).1
      .aborted { st1 with store := s2, trace := st1.trace ++ [Ev.status "failed"] } msg

/-- The delivery loop over the remaining candidates, carrying the position
index; it stops early when an iteration aborts, returning the thrown
message. -/
def runLoop (o : DriverOracle) (jobId accountOwner : String) (total : Nat) :
    Nat → List String → LoopState → LoopState × Option String
  | _, [], st => (st, none)
  | i, u :: rest, st =>
      match loopStep o jobId accountOwner total i u st with
      | .next st1 => runLoop o jobId accountOwner total (i + 1) rest st1
      | .aborted st1 m => (st1, some m)

/-- Mirror of the notification-scan retry loop of `processFollowersJob`:
`scan a` is the outcome of attempt `a` of `checkNotifications` (zero
based, `maxNotificationRetries = 3`); a failed non-final attempt sleeps
10000 ms before retrying; exhausting the attempts sets the `warning`
annotation on the job and continues with an empty follower list. -/
def checkNotifAttempts (scan : Nat → Except String (List String)) (jobId : String) (tW : Nat) :
    Nat → Nat → JobStore → List Ev → List String × JobStore × List Ev
  | _, 0, s, evs => ([], s, evs)
  | a, fuel + 1, s, evs =>
      match scan a with
      | .ok fs => (fs, s, evs)
      | .error _ =>
          if a + 1 < 3 then
            checkNotifAttempts scan jobId tW (a + 1) fuel s (evs ++ [Ev.sleep 10000])
          else
            let s1 := (updateJobStatus s jobId "warning"
              { warning := some "Notification check failed, process may be incomplete" } tW).1
            ([], s1, evs ++ [Ev.status "warning"])

/-- Final state of the discovery-plus-delivery phase of a job run. -/
structure JobRun where
  store : JobStore
  records : Option (List ProcessedRecord)
  processedUsers : List UserData
  failedUsers : List UserData
  trace : List Ev
  thrown : Option String
deriving DecidableEq

/-- Mirror of the nonempty-candidate tail of `processFollowersJob`: the
delivery loop from the given start state, then either `completeJob` with
the summary result, or — when the loop threw on the
reconnection-exhaustion path — the outer catch, which fails the job again
with the partial-progress message and rethrows. -/
def sendingPhase (o : DriverOracle) (jobId accountOwner : String)
    (newFollowers : List String) (st0 : LoopState) : JobRun :=
  let out := runLoop o jobId accountOwner newFollowers.length 0 newFollowers st0
  match out.2 with
  | none =>
      let res : JobResult :=
        { processedUsers := out.1.processedUsers
          failedUsers := out.1.failedUsers
          summary := "Processed " ++ toString newFollowers.length ++ " followers: " ++
            toString out.1.processedUsers.length ++ " successful, " ++
            toString out.1.failedUsers.length ++ " failed" }
      let s3 := (completeJob out.1.store jobId res (o.nowIso newFollowers.length)).1
      { store := s3, records := out.1.records
        processedUsers := out.1.processedUsers, failedUsers := out.1.failedUsers
        trace := out.1.trace ++ [Ev.status "completed"], thrown := none }
  | some m =>
      let errMsg := "Error: " ++ m ++
        (if out.1.processedUsers.length > 0 then
          " " ++ toString out.1.processedUsers.length ++
            " messages were successfully sent before the error."
        else "")
      let s3 := (failJob out.1.store jobId errMsg (o.nowIso newFollowers.length)).1
      { store := s3, records := out.1.records
        processedUsers := out.1.processedUsers, failedUsers := out.1.failedUsers
        trace := out.1.trace ++ [Ev.status "failed"], thrown := some m }

/-- Mirror of `processFollowersJob` from the notification scan to the
terminal transition: discovery with retries, `setTotalFollowers`, the
empty-set early completion, otherwise the `sending_messages` transition
followed by the delivery loop of `sendingPhase`.  The browser session
starts connected. -/
def processFollowersPhase (o : DriverOracle) (scan : Nat → Except String (List String))
    (jobId accountOwner : String) (collection : Option (List ProcessedRecord))
    (s : JobStore) : JobRun :=
  let disc := checkNotifAttempts scan jobId (o.nowIso 0) 0 3 s []
  let newFollowers := disc.1
  let s1 := (setTotalFollowers disc.2.1 jobId newFollowers.length).1
  if newFollowers.isEmpty then
    let s2 := (updateJobStatus s1 jobId "completed"
      { message := some "No new followers to process" } (o.nowIso 0)).1
    { store := s2, records := collection, processedUsers := [], failedUsers := []
      trace := disc.2.2 ++ [Ev.status "completed"], thrown := none }
  else
    let s2 := (updateJobStatus s1 jobId "sending_messages" {} (o.nowIso 0)).1
    sendingPhase o jobId accountOwner newFollowers
      { store := s2, records := collection, connected := true
        processedUsers := [], failedUsers := []
        trace := disc.2.2 ++ [Ev.status "sending_messages"] }

/-- Checker over a status sequence: every `reconnecting` entry is
immediately preceded by a `sending_messages` entry; `prev` is the entry
just before the list. -/
def reconnPreceded (prev : String) : List String → Bool
  | [] => true
  | a :: rest => ((a != "reconnecting") || (prev == "sending_messages")) && reconnPreceded a rest

/-- Checker over a whole status sequence: every `reconnecting` entry is
immediately preceded by a `sending_messages` entry (in particular the
sequence does not start with `reconnecting`). -/
def noBadReconn (l : List String) : Bool :=
  reconnPreceded "" l

/-- Last element of a string list with a default, folded from the left. -/
def lastD (d : String) : List String → String
  | [] => d
  | a :: rest => lastD a rest

/-! Shared lemmas about the job store. -/

theorem getJob_setJob_self (k : String) (j j0 : Job) :
    ∀ s : JobStore, getJob s k = some j0 → getJob (setJob s k j) k = some j := by
  intro s
  induction s with
  | nil => intro h; simp [getJob] at h
  | cons p rest ih =>
      obtain ⟨a, b⟩ := p
      intro h
      by_cases hak : a = k
      · subst hak
        simp [getJob, setJob]
      · simp only [getJob, setJob, if_neg hak] at h ⊢
        exact ih h

theorem getJob_setJob_ne (k k2 : String) {j : Job} (h : k2 ≠ k) :
    ∀ s : JobStore, getJob (setJob s k j) k2 = getJob s k2 := by
  intro s
  induction s with
  | nil => simp [getJob, setJob]
  | cons p rest ih =>
      obtain ⟨a, b⟩ := p
      by_cases hak : a = k
      · subst hak
        have hne : ¬ a = k2 := fun hc => h (hc ▸ rfl)
        simp [getJob, setJob, hne, ih]
      · simp only [setJob, if_neg hak]
        by_cases hak2 : a = k2
        · simp [getJob, hak2]
        · simp [getJob, hak2, ih]

theorem getJob_updateJobStatus_self (s : JobStore) (jobId status : String)
    (d : JobPatch) (now : Nat) (j : Job) (h : getJob s jobId = some j) :
    getJob (updateJobStatus s jobId status d now).1 jobId =
      some (applyPatch d { j with status := status, updated := some now }) := by
  simp only [updateJobStatus, h]
  exact getJob_setJob_self _ _ _ _ h

theorem getJob_setTotalFollowers_self (s : JobStore) (jobId : String) (total : Nat)
    (j : Job) (h : getJob s jobId = some j) :
    getJob (setTotalFollowers s jobId total).1 jobId =
      some { j with progress := { j.progress with total := total } } := by
  simp only [setTotalFollowers, h]
  exact getJob_setJob_self _ _ _ _ h

theorem getJob_addProcessedUser_self (s : JobStore) (jobId : String) (u : UserData)
    (j : Job) (h : getJob s jobId = some j) :
    getJob (addProcessedUser s jobId u).1 jobId =
      some { j with
        processedUsers := j.processedUsers ++ [u]
        progress := { j.progress with processed := j.progress.processed + 1 } } := by
  simp only [addProcessedUser, h]
  exact getJob_setJob_self _ _ _ _ h

theorem getJob_addFailedUser_self (s : JobStore) (jobId : String) (u : UserData)
    (j : Job) (h : getJob s jobId = some j) :
    getJob (addFailedUser s jobId u).1 jobId =
      some { j with
        failedUsers := j.failedUsers ++ [u]
        progress := { j.progress with processed := j.progress.processed + 1 } } := by
  simp only [addFailedUser, h]
  exact getJob_setJob_self _ _ _ _ h

theorem getJob_completeJob_self (s : JobStore) (jobId : String) (res : JobResult)
    (now : Nat) (j : Job) (h : getJob s jobId = some j) :
    getJob (completeJob s jobId res now).1 jobId =
      some { j with status := "completed", result := some res, completed := some now } := by
  simp only [completeJob, h]
  exact getJob_setJob_self _ _ _ _ h

theorem getJob_failJob_self (s : JobStore) (jobId error : String)
    (now : Nat) (j : Job) (h : getJob s jobId = some j) :
    getJob (failJob s jobId error now).1 jobId =
      some { j with status := "failed", error := some error, completed := some now } := by
  simp only [failJob, h]
  exact getJob_setJob_self _ _ _ _ h

/-! C7: job reaper. -/

/-- C7.  For the default retention of 24 hours, one sweep of
`cleanupOldJobs` keeps exactly the jobs whose age in milliseconds, measured
from the `completed` timestamp when set and from `created` otherwise, does
not exceed `24 * 3600000`; equivalently, a job is deleted exactly when its
age strictly exceeds the threshold, and every younger job remains. -/
theorem c7_cleanup_deletes_exactly_expired (s : JobStore) (now : Nat) (jobId : String) (j : Job) :
    ((jobId, j) ∈ cleanupOldJobs s 24 now ↔
      ((jobId, j) ∈ s ∧
        (now : Int) - ((j.completed.getD j.created : Nat) : Int) ≤ 24 * 3600000)) := by
  simp only [cleanupOldJobs, List.mem_filter, Bool.not_eq_true', decide_eq_false_iff_not,
    not_lt]
  constructor
  · rintro ⟨hm, hle⟩
    exact ⟨hm, by exact_mod_cast hle⟩
  · rintro ⟨hm, hle⟩
    exact ⟨hm, by exact_mod_cast hle⟩

/-! C10: updateJobStatus frame and effect. -/

/-- C10.  For a known job id, `updateJobStatus` returns `true`, sets the
status, bumps `updated`, and copies every key of the data patch onto the
job; every field not named in the patch (other than `status` and `updated`)
keeps its previous value, every other job of the store is untouched, and no
field is protected: a patch key `id`, `params` or `progress` overwrites
even those fields. -/
theorem c10_updateJobStatus_frame (s : JobStore) (jobId : String) (j : Job)
    (status : String) (d : JobPatch) (now : Nat) (h : getJob s jobId = some j) :
    (updateJobStatus s jobId status d now).2 = true
    ∧ (∃ j2, getJob (updateJobStatus s jobId status d now).1 jobId = some j2
        ∧ j2.status = d.status.getD status
        ∧ j2.updated = some (d.updated.getD now)
        ∧ j2.id = d.id.getD j.id
        ∧ j2.created = d.created.getD j.created
        ∧ j2.params = d.params.getD j.params
        ∧ j2.progress = d.progress.getD j.progress
        ∧ j2.result = d.result.getD j.result
        ∧ j2.processedUsers = d.processedUsers.getD j.processedUsers
        ∧ j2.failedUsers = d.failedUsers.getD j.failedUsers
        ∧ j2.error = d.error.getD j.error
        ∧ j2.completed = (d.completed.elim j.completed some)
        ∧ j2.message = (d.message.elim j.message some)
        ∧ j2.warning = (d.warning.elim j.warning some)
        ∧ j2.info = (d.info.elim j.info some))
    ∧ (∀ k, k ≠ jobId → getJob (updateJobStatus s jobId status d now).1 k = getJob s k) := by
  refine ⟨by simp [updateJobStatus, h], ⟨applyPatch d { j with status := status, updated := some now }, getJob_updateJobStatus_self s jobId status d now j h, ?_, ?_, ?_, ?_, ?_, ?_, ?_, ?_, ?_, ?_, ?_, ?_, ?_, ?_⟩, ?_⟩
  · rfl
  · cases hc : d.updated <;> simp [applyPatch, hc]
  · rfl
  · rfl
  · rfl
  · rfl
  · rfl
  · rfl
  · rfl
  · rfl
  · cases hc : d.completed <;> simp [applyPatch, hc, Option.elim]
  · cases hc : d.message <;> simp [applyPatch, hc, Option.elim]
  · cases hc : d.warning <;> simp [applyPatch, hc, Option.elim]
  · cases hc : d.info <;> simp [applyPatch, hc, Option.elim]
  · intro k hk
    simp only [updateJobStatus, h]
    exact getJob_setJob_ne jobId k hk s

/-- A two-job store used to exercise the frame theorem. -/
def twoJobStore : JobStore :=
  createJob (createJob [] "q" "j2" 0) "p" "j1" 0

/-- A patch that overwrites the `id` and `progress` fields the data model
declares immutable. -/
def hijackPatch : JobPatch :=
  { id := some "hijacked", progress := some { total := 9, processed := 9 } }

/-- Witness for C10 at a concrete store: the patch overwrites `id` and
`progress` even though the data model declares them immutable, and the
sibling job is untouched. -/
theorem c10_updateJobStatus_frame_witness :
    getJob twoJobStore "j1" = some (initialJob "p" "j1" 0)
    ∧ ((updateJobStatus twoJobStore "j1" "running" hijackPatch 5).2 = true
        ∧ (∃ j2, getJob (updateJobStatus twoJobStore "j1" "running" hijackPatch 5).1 "j1" = some j2
            ∧ j2.status = hijackPatch.status.getD "running"
            ∧ j2.updated = some (hijackPatch.updated.getD 5)
            ∧ j2.id = hijackPatch.id.getD (initialJob "p" "j1" 0).id
            ∧ j2.created = hijackPatch.created.getD (initialJob "p" "j1" 0).created
            ∧ j2.params = hijackPatch.params.getD (initialJob "p" "j1" 0).params
            ∧ j2.progress = hijackPatch.progress.getD (initialJob "p" "j1" 0).progress
            ∧ j2.result = hijackPatch.result.getD (initialJob "p" "j1" 0).result
            ∧ j2.processedUsers = hijackPatch.processedUsers.getD (initialJob "p" "j1" 0).processedUsers
            ∧ j2.failedUsers = hijackPatch.failedUsers.getD (initialJob "p" "j1" 0).failedUsers
            ∧ j2.error = hijackPatch.error.getD (initialJob "p" "j1" 0).error
            ∧ j2.completed = (hijackPatch.completed.elim (initialJob "p" "j1" 0).completed some)
            ∧ j2.message = (hijackPatch.message.elim (initialJob "p" "j1" 0).message some)
            ∧ j2.warning = (hijackPatch.warning.elim (initialJob "p" "j1" 0).warning some)
            ∧ j2.info = (hijackPatch.info.elim (initialJob "p" "j1" 0).info some))
        ∧ (∀ k, k ≠ "j1" → getJob (updateJobStatus twoJobStore "j1" "running" hijackPatch 5).1 k =
            getJob twoJobStore k)) :=
  ⟨by decide, c10_updateJobStatus_frame _ _ _ _ _ _ (by decide)⟩

/-! C2: terminal exclusivity. -/

/-- C2 counterexample.  The claim fails on the code at concrete inputs:
first, the no-new-followers path reaches status `completed` through
`updateJobStatus`, leaving both `result` and `error` null, so it is false
that exactly one of them is populated once the status is terminal; second,
a subsequent `failJob` call flips the same job from `completed` to
`failed`, so it is false that no later call changes a terminal status;
third, a `completeJob` call after `failJob` leaves both `result` and
`error` populated. -/
theorem c2_terminal_counterexample :
    ((getJob (updateJobStatus (createJob [] "p" "j1" 0) "j1" "completed"
        { message := some "No new followers to process" } 1).1 "j1").map
        (fun j => (j.status, j.result.isSome, j.error.isSome)) = some ("completed", false, false))
    ∧ ((getJob (failJob (updateJobStatus (createJob [] "p" "j1" 0) "j1" "completed"
        { message := some "No new followers to process" } 1).1 "j1" "boom" 2).1 "j1").map
        (fun j => (j.status, j.result.isSome, j.error.isSome)) = some ("failed", false, true))
    ∧ ((getJob (completeJob (failJob (createJob [] "p" "j1" 0) "j1" "boom" 1).1 "j1"
        { processedUsers := [], failedUsers := [], summary := "s" } 2).1 "j1").map
        (fun j => (j.status, j.result.isSome, j.error.isSome)) = some ("completed", true, true)) := by
  decide

/-- C2 as amended.  The store does not guard terminal states.  What holds
instead: for a job whose `result` and `error` are both still null, a single
`completeJob` call yields status `completed` with exactly `result`
populated, and a single `failJob` call yields status `failed` with exactly
`error` populated; but nothing prevents a later `updateJobStatus`,
`completeJob` or `failJob` call from changing the terminal status again,
and a terminal status reached through `updateJobStatus` populates
neither field. -/
theorem c2_terminal_amended (s : JobStore) (jobId : String) (j : Job)
    (res : JobResult) (e : String) (t1 t2 : Nat) (st2 : String) (d : JobPatch)
    (h : getJob s jobId = some j) (hr : j.result = none) (he : j.error = none)
    (hd : d.status = none) (hde : d.error = none) (hdr : d.result = none) :
    (∃ j1, getJob (completeJob s jobId res t1).1 jobId = some j1
      ∧ j1.status = "completed" ∧ j1.result = some res ∧ j1.error = none)
    ∧ (∃ j2, getJob (failJob s jobId e t1).1 jobId = some j2
      ∧ j2.status = "failed" ∧ j2.error = some e ∧ j2.result = none)
    ∧ (∃ j3, getJob (updateJobStatus (completeJob s jobId res t1).1 jobId st2 d t2).1 jobId = some j3
      ∧ j3.status = st2)
    ∧ (∃ j4, getJob (failJob (completeJob s jobId res t1).1 jobId e t2).1 jobId = some j4
      ∧ j4.status = "failed" ∧ j4.error = some e)
    ∧ (∃ j5, getJob (updateJobStatus s jobId "completed" d t1).1 jobId = some j5
      ∧ j5.status = "completed" ∧ j5.result = none ∧ j5.error = none) := by
  refine ⟨⟨_, getJob_completeJob_self s jobId res t1 j h, rfl, rfl, he⟩,
    ⟨_, getJob_failJob_self s jobId e t1 j h, rfl, rfl, hr⟩, ?_, ?_, ?_⟩
  · refine ⟨_, getJob_updateJobStatus_self _ jobId st2 d t2 _
      (getJob_completeJob_self s jobId res t1 j h), ?_⟩
    simp [applyPatch, hd]
  · exact ⟨_, getJob_failJob_self _ jobId e t2 _
      (getJob_completeJob_self s jobId res t1 j h), rfl, rfl⟩
  · refine ⟨_, getJob_updateJobStatus_self s jobId "completed" d t1 j h, ?_, ?_, ?_⟩
    · simp [applyPatch, hd]
    · simp [applyPatch, hdr, hr]
    · simp [applyPatch, hde, he]

/-- Witness for C2 as amended, at a fresh one-job store with an empty
patch. -/
theorem c2_terminal_amended_witness :
    (getJob (createJob [] "p" "j1" 0) "j1" = some (initialJob "p" "j1" 0)
      ∧ (initialJob "p" "j1" 0).result = none ∧ (initialJob "p" "j1" 0).error = none)
    ∧ ((∃ j1, getJob (completeJob (createJob [] "p" "j1" 0) "j1"
          { processedUsers := [], failedUsers := [], summary := "s" } 1).1 "j1" = some j1
        ∧ j1.status = "completed"
        ∧ j1.result = some { processedUsers := [], failedUsers := [], summary := "s" }
        ∧ j1.error = none)
      ∧ (∃ j2, getJob (failJob (createJob [] "p" "j1" 0) "j1" "boom" 1).1 "j1" = some j2
        ∧ j2.status = "failed" ∧ j2.error = some "boom" ∧ j2.result = none)
      ∧ (∃ j3, getJob (updateJobStatus (completeJob (createJob [] "p" "j1" 0) "j1"
            { processedUsers := [], failedUsers := [], summary := "s" } 1).1 "j1" "running" {} 2).1 "j1" = some j3
        ∧ j3.status = "running")
      ∧ (∃ j4, getJob (failJob (completeJob (createJob [] "p" "j1" 0) "j1"
            { processedUsers := [], failedUsers := [], summary := "s" } 1).1 "j1" "boom" 2).1 "j1" = some j4
        ∧ j4.status = "failed" ∧ j4.error = some "boom")
      ∧ (∃ j5, getJob (updateJobStatus (createJob [] "p" "j1" 0) "j1" "completed" {} 1).1 "j1" = some j5
        ∧ j5.status = "completed" ∧ j5.result = none ∧ j5.error = none)) :=
  ⟨⟨by decide, by decide, by decide⟩,
    c2_terminal_amended (createJob [] "p" "j1" 0) "j1" (initialJob "p" "j1" 0)
      { processedUsers := [], failedUsers := [], summary := "s" } "boom" 1 2 "running" {}
      (by decide) (by decide) (by decide) (by decide) (by decide) (by decide)⟩

/-! C3: progress monotonicity and bound. -/

/-- C3 counterexample.  At concrete inputs the store violates the claim:
with `total` set to `1`, two add calls drive `processed` to `2 > 1`
(nothing clamps `processed` at `total`); and a status update whose data
patch carries a `progress` key resets `processed` from `1` to `0`, a
decrease. -/
theorem c3_progress_counterexample :
    ((getJob (applyOps (createJob [] "p" "j1" 0)
        [StoreOp.setTotal "j1" 1,
          StoreOp.addProcessed "j1" { username := "a", status := "success", timestamp := 0 },
          StoreOp.addFailed "j1" { username := "b", status := "failed", timestamp := 0 }]) "j1").map
        (fun j => (j.progress.total, j.progress.processed)) = some (1, 2))
    ∧ (processedOf (applyOps (createJob [] "p" "j1" 0)
          [StoreOp.addProcessed "j1" { username := "a", status := "success", timestamp := 0 }]) "j1" = 1
      ∧ processedOf (applyOps (createJob [] "p" "j1" 0)
          [StoreOp.addProcessed "j1" { username := "a", status := "success", timestamp := 0 },
            StoreOp.updStatus "j1" "running" { progress := some { total := 0, processed := 0 } } 1]) "j1" = 0) := by
  decide

theorem processedOf_applyOp_le (s : JobStore) (jid : String) (op : StoreOp)
    (hop : keepsProgressKey op) : processedOf s jid ≤ processedOf (applyOp s op) jid := by
  cases op with
  | addProcessed jid2 u =>
      simp only [applyOp, addProcessedUser]
      cases hj : getJob s jid2 with
      | none => simp
      | some j =>
          by_cases hid : jid = jid2
          · subst hid
            have hset := getJob_setJob_self jid
              { j with
                processedUsers := j.processedUsers ++ [u]
                progress := { j.progress with processed := j.progress.processed + 1 } } j s hj
            simp [processedOf, hj, hset]
          · simp [processedOf, getJob_setJob_ne, hid]
  | addFailed jid2 u =>
      simp only [applyOp, addFailedUser]
      cases hj : getJob s jid2 with
      | none => simp
      | some j =>
          by_cases hid : jid = jid2
          · subst hid
            have hset := getJob_setJob_self jid
              { j with
                failedUsers := j.failedUsers ++ [u]
                progress := { j.progress with processed := j.progress.processed + 1 } } j s hj
            simp [processedOf, hj, hset]
          · simp [processedOf, getJob_setJob_ne, hid]
  | setTotal jid2 n =>
      simp only [applyOp, setTotalFollowers]
      cases hj : getJob s jid2 with
      | none => simp
      | some j =>
          by_cases hid : jid = jid2
          · subst hid
            have hset := getJob_setJob_self jid
              { j with progress := { j.progress with total := n } } j s hj
            simp [processedOf, hj, hset]
          · simp [processedOf, getJob_setJob_ne, hid]
  | updStatus jid2 st d t =>
      have hdp : d.progress = none := hop
      simp only [applyOp, updateJobStatus]
      cases hj : getJob s jid2 with
      | none => simp
      | some j =>
          by_cases hid : jid = jid2
          · subst hid
            have hset := getJob_setJob_self jid
              (applyPatch d { j with status := st, updated := some t }) j s hj
            simp [applyPatch, hdp] at hset
            simp [processedOf, applyPatch, hdp, hj, hset]
          · simp [processedOf, getJob_setJob_ne, hid]

/-- C3 as amended.  Over any sequence of `addProcessedUser`,
`addFailedUser`, `setTotalFollowers` and `updateJobStatus` calls whose data
patches do not carry a `progress` key, `progress.processed` never
decreases; but the store does not enforce the bound by `total`: each add
call increments `processed` unconditionally, with no comparison against
`progress.total`, so `processed` exceeds `total` as soon as more add calls
arrive than `total`. -/
theorem c3_progress_amended (ops : List StoreOp)
    (h : ∀ op ∈ ops, keepsProgressKey op) (s : JobStore) (jid : String) :
    processedOf s jid ≤ processedOf (applyOps s ops) jid
    ∧ (∀ (jid2 : String) (j : Job) (u : UserData), getJob s jid2 = some j →
        processedOf (addProcessedUser s jid2 u).1 jid2 = j.progress.processed + 1
        ∧ processedOf (addFailedUser s jid2 u).1 jid2 = j.progress.processed + 1) := by
  constructor
  · induction ops generalizing s with
    | nil => simp [applyOps]
    | cons op rest ih =>
        have h1 : keepsProgressKey op := h op (List.mem_cons_self op rest)
        have h2 : ∀ op2 ∈ rest, keepsProgressKey op2 := fun op2 hm => h op2 (List.mem_cons_of_mem op hm)
        calc processedOf s jid ≤ processedOf (applyOp s op) jid :=
              processedOf_applyOp_le s jid op h1
          _ ≤ processedOf (applyOps (applyOp s op) rest) jid := ih h2 (applyOp s op)
  · intro jid2 j u hj
    constructor
    · have hset := getJob_addProcessedUser_self s jid2 u j hj
      simp [processedOf, hset]
    · have hset := getJob_addFailedUser_self s jid2 u j hj
      simp [processedOf, hset]

/-- Witness for C3 as amended, on a concrete operation sequence with
progress-free patches. -/
theorem c3_progress_amended_witness :
    (∀ op ∈ [StoreOp.setTotal "j1" 3,
        StoreOp.addProcessed "j1" { username := "a", status := "success", timestamp := 0 },
        StoreOp.updStatus "j1" "completed" { message := some "done" } 1], keepsProgressKey op)
    ∧ (processedOf (createJob [] "p" "j1" 0) "j1" ≤
        processedOf (applyOps (createJob [] "p" "j1" 0)
          [StoreOp.setTotal "j1" 3,
            StoreOp.addProcessed "j1" { username := "a", status := "success", timestamp := 0 },
            StoreOp.updStatus "j1" "completed" { message := some "done" } 1]) "j1"
      ∧ (∀ (jid2 : String) (j : Job) (u : UserData),
          getJob (createJob [] "p" "j1" 0) jid2 = some j →
          processedOf (addProcessedUser (createJob [] "p" "j1" 0) jid2 u).1 jid2 = j.progress.processed + 1
          ∧ processedOf (addFailedUser (createJob [] "p" "j1" 0) jid2 u).1 jid2 = j.progress.processed + 1)) :=
  ⟨by decide,
    c3_progress_amended _ (by decide) (createJob [] "p" "j1" 0) "j1"⟩

/-! C5: discovery idempotency filter. -/

/-- C5.  With a configured store, an identity holding a Processed Record
for the account owner and whose lookup succeeds is never in the discovery
output; an identity whose lookup errors is kept (fail open, assumed
unprocessed); with no store configured the deduplicated scan output is
returned unfiltered. -/
theorem c5_discovery_filter (records : List ProcessedRecord) (errs : String → Bool)
    (accountOwner : String) (followers : List String) (X : String) :
    ((∃ t, (⟨X, accountOwner, t⟩ : ProcessedRecord) ∈ records) → errs X = false →
      X ∉ checkNotificationsFilter (some (mongoFindOne records errs accountOwner)) followers)
    ∧ (errs X = true → X ∈ followers →
      X ∈ checkNotificationsFilter (some (mongoFindOne records errs accountOwner)) followers)
    ∧ checkNotificationsFilter none followers = followers := by
  refine ⟨?_, ?_, rfl⟩
  · rintro ⟨t, ht⟩ herr
    have hXok : mongoFindOne records errs accountOwner X = .ok true := by
      have hany : (records.any fun r =>
          decide (r.followerUsername = X) && decide (r.accountOwner = accountOwner)) = true := by
        rw [List.any_eq_true]
        exact ⟨⟨X, accountOwner, t⟩, ht, by simp⟩
      simp [mongoFindOne, herr, hany]
    induction followers with
    | nil => simp [checkNotificationsFilter, filterUnprocessed]
    | cons u rest ih =>
        simp only [checkNotificationsFilter] at ih ⊢
        by_cases hux : u = X
        · subst hux
          simp [filterUnprocessed, hXok]
          exact ih
        · cases hfo : mongoFindOne records errs accountOwner u with
          | ok b =>
              cases b
              · simp only [filterUnprocessed, hfo]
                intro hc
                rcases List.mem_cons.mp hc with h1 | h1
                · exact hux h1.symm
                · exact ih h1
              · simp only [filterUnprocessed, hfo]
                exact ih
          | error e =>
              simp only [filterUnprocessed, hfo]
              intro hc
              rcases List.mem_cons.mp hc with h1 | h1
              · exact hux h1.symm
              · exact ih h1
  · intro herr
    have hXerr : mongoFindOne records errs accountOwner X = .error () := by
      simp [mongoFindOne, herr]
    induction followers with
    | nil => intro hmem; simp at hmem
    | cons u rest ih =>
        intro hmem
        simp only [checkNotificationsFilter] at ih ⊢
        rcases List.mem_cons.mp hmem with h1 | h1
        · subst h1
          simp [filterUnprocessed, hXerr]
        · cases hfo : mongoFindOne records errs accountOwner u with
          | ok b =>
              cases b
              · simp only [filterUnprocessed, hfo]
                exact List.mem_cons_of_mem u (ih h1)
              · simp only [filterUnprocessed, hfo]
                exact ih h1
          | error e =>
              simp only [filterUnprocessed, hfo]
              exact List.mem_cons_of_mem u (ih h1)

/-- Witness for C5: the already-recorded identity is filtered out, the
identity with an erroring lookup is kept. -/
theorem c5_discovery_filter_witness :
    ((⟨"x", "A", 0⟩ : ProcessedRecord) ∈ [(⟨"x", "A", 0⟩ : ProcessedRecord)]
      ∧ (fun u => u == "e") "x" = false
      ∧ (fun u => u == "e") "e" = true)
    ∧ "x" ∉ checkNotificationsFilter
        (some (mongoFindOne [⟨"x", "A", 0⟩] (fun u => u == "e") "A")) ["x", "e", "y"]
    ∧ "e" ∈ checkNotificationsFilter
        (some (mongoFindOne [⟨"x", "A", 0⟩] (fun u => u == "e") "A")) ["x", "e", "y"] :=
  ⟨⟨by decide, by decide, by decide⟩,
    (c5_discovery_filter [⟨"x", "A", 0⟩] (fun u => u == "e") "A" ["x", "e", "y"] "x").1
      ⟨0, by decide⟩ (by decide),
    (c5_discovery_filter [⟨"x", "A", 0⟩] (fun u => u == "e") "A" ["x", "e", "y"] "e").2.1
      (by decide) (by decide)⟩

/-! C8: session establishment retry policy. -/

theorem initBrowserGo_count_le (attempts : Nat → Except String Nat) :
    ∀ fuel rc, (initBrowserGo attempts rc fuel).2.2 ≤ fuel := by
  intro fuel
  induction fuel with
  | zero => intro rc; simp [initBrowserGo]
  | succ n ih =>
      intro rc
      simp only [initBrowserGo]
      cases attempts rc with
      | ok b => simp
      | error e =>
          by_cases hge : rc + 1 ≥ 5
          · simp [hge]
          · simpa [hge] using Nat.succ_le_succ (ih (rc + 1))

/-- C8.  `initBrowser` performs at most 5 attempts; it always terminates
with either a session or an error; when every attempt fails it stops after
the 5th with the fatal error message, having slept the linearly growing
delays 8000, 16000, 24000, 32000 between attempts; when attempt `k` (zero
based, `k < 5`) succeeds after `k` failures it returns that session after
`k + 1` attempts, with delay `8000 * (n + 1)` before retry `n + 1`. -/
theorem c8_initBrowser_retry_policy (attempts : Nat → Except String Nat) :
    (initBrowser attempts).2.2 ≤ 5
    ∧ ((∃ b, (initBrowser attempts).1 = .ok b) ∨ (∃ m, (initBrowser attempts).1 = .error m))
    ∧ (∀ e4, (∀ k, k < 4 → ∃ e, attempts k = .error e) → attempts 4 = .error e4 →
        (initBrowser attempts).1 = .error ("Failed to initialize browser after 5 attempts: " ++ e4)
        ∧ (initBrowser attempts).2.1 = [8000, 16000, 24000, 32000]
        ∧ (initBrowser attempts).2.2 = 5)
    ∧ (∀ k b, k < 5 → (∀ i2, i2 < k → ∃ e, attempts i2 = .error e) → attempts k = .ok b →
        (initBrowser attempts).1 = .ok b
        ∧ (initBrowser attempts).2.2 = k + 1
        ∧ (initBrowser attempts).2.1 = (List.range k).map (fun n => 8000 * (n + 1))) := by
  refine ⟨initBrowserGo_count_le attempts 5 0, ?_, ?_, ?_⟩
  · cases h : (initBrowser attempts).1 with
    | ok b => exact Or.inl ⟨b, rfl⟩
    | error m => exact Or.inr ⟨m, rfl⟩
  · intro e4 hall h4
    obtain ⟨e0, h0⟩ := hall 0 (by norm_num)
    obtain ⟨e1, h1⟩ := hall 1 (by norm_num)
    obtain ⟨e2, h2⟩ := hall 2 (by norm_num)
    obtain ⟨e3, h3⟩ := hall 3 (by norm_num)
    refine ⟨?_, ?_, ?_⟩ <;>
      simp [initBrowser, initBrowserGo, h0, h1, h2, h3, h4]
  · intro k b hk hfail hok
    interval_cases k
    · refine ⟨?_, ?_, ?_⟩ <;> simp [initBrowser, initBrowserGo, hok]
    · obtain ⟨e0, h0⟩ := hfail 0 (by norm_num)
      refine ⟨?_, ?_, ?_⟩ <;> simp [initBrowser, initBrowserGo, h0, hok, List.range_succ]
    · obtain ⟨e0, h0⟩ := hfail 0 (by norm_num)
      obtain ⟨e1, h1⟩ := hfail 1 (by norm_num)
      refine ⟨?_, ?_, ?_⟩ <;> simp [initBrowser, initBrowserGo, h0, h1, hok, List.range_succ]
    · obtain ⟨e0, h0⟩ := hfail 0 (by norm_num)
      obtain ⟨e1, h1⟩ := hfail 1 (by norm_num)
      obtain ⟨e2, h2⟩ := hfail 2 (by norm_num)
      refine ⟨?_, ?_, ?_⟩ <;> simp [initBrowser, initBrowserGo, h0, h1, h2, hok, List.range_succ]
    · obtain ⟨e0, h0⟩ := hfail 0 (by norm_num)
      obtain ⟨e1, h1⟩ := hfail 1 (by norm_num)
      obtain ⟨e2, h2⟩ := hfail 2 (by norm_num)
      obtain ⟨e3, h3⟩ := hfail 3 (by norm_num)
      refine ⟨?_, ?_, ?_⟩ <;> simp [initBrowser, initBrowserGo, h0, h1, h2, h3, hok, List.range_succ]

/-- Witness for C8 on two concrete attempt oracles: one that always fails
(fatal error after 5 attempts, delays 8000..32000) and one that succeeds on
the third attempt (session returned after 3 attempts, delays 8000 and
16000). -/
theorem c8_initBrowser_retry_policy_witness :
    ((initBrowser (fun _ => .error "down")).1 =
        .error ("Failed to initialize browser after 5 attempts: " ++ "down")
      ∧ (initBrowser (fun _ => .error "down")).2.1 = [8000, 16000, 24000, 32000]
      ∧ (initBrowser (fun _ => .error "down")).2.2 = 5)
    ∧ ((initBrowser (fun k => if k < 2 then .error "down" else .ok 7)).1 = .ok 7
      ∧ (initBrowser (fun k => if k < 2 then .error "down" else .ok 7)).2.2 = 3
      ∧ (initBrowser (fun k => if k < 2 then .error "down" else .ok 7)).2.1 =
          (List.range 2).map (fun n => 8000 * (n + 1))) :=
  ⟨(c8_initBrowser_retry_policy (fun _ => .error "down")).2.2.1 "down"
      (fun k _ => ⟨"down", rfl⟩) rfl,
    (c8_initBrowser_retry_policy (fun k => if k < 2 then .error "down" else .ok 7)).2.2.2 2 7
      (by norm_num) (fun i2 hi2 => ⟨"down", by interval_cases i2 <;> rfl⟩) rfl⟩

/-! C6: discovery retry exhaustion is non-fatal. -/

/-- C6.  When the notification scan fails on all 3 attempts, the run
sleeps the fixed 10000 ms backoff between consecutive attempts, annotates
the job with the warning, proceeds with an empty candidate set, and
reaches status `completed` with the message `No new followers to process`
and a null `error` (no job failure), with `progress.total = 0`. -/
theorem c6_discovery_retry_exhaustion (o : DriverOracle)
    (scan : Nat → Except String (List String)) (jobId accountOwner : String)
    (collection : Option (List ProcessedRecord)) (s : JobStore) (j : Job)
    (h0 : ∃ e, scan 0 = .error e) (h1 : ∃ e, scan 1 = .error e) (h2 : ∃ e, scan 2 = .error e)
    (hj : getJob s jobId = some j) (he : j.error = none) :
    (processFollowersPhase o scan jobId accountOwner collection s).thrown = none
    ∧ (processFollowersPhase o scan jobId accountOwner collection s).trace =
        [Ev.sleep 10000, Ev.sleep 10000, Ev.status "warning", Ev.status "completed"]
    ∧ ∃ j2, getJob (processFollowersPhase o scan jobId accountOwner collection s).store jobId = some j2
        ∧ j2.status = "completed"
        ∧ j2.message = some "No new followers to process"
        ∧ j2.warning = some "Notification check failed, process may be incomplete"
        ∧ j2.error = none
        ∧ j2.progress = { total := 0, processed := j.progress.processed } := by
  obtain ⟨e0, h0⟩ := h0
  obtain ⟨e1, h1⟩ := h1
  obtain ⟨e2, h2⟩ := h2
  have hdisc : checkNotifAttempts scan jobId (o.nowIso 0) 0 3 s [] =
      ([], (updateJobStatus s jobId "warning"
          { warning := some "Notification check failed, process may be incomplete" } (o.nowIso 0)).1,
        [Ev.sleep 10000, Ev.sleep 10000, Ev.status "warning"]) := by
    simp [checkNotifAttempts, h0, h1, h2]
  have hjW := getJob_updateJobStatus_self s jobId "warning"
    { warning := some "Notification check failed, process may be incomplete" } (o.nowIso 0) j hj
  have hjT := getJob_setTotalFollowers_self _ jobId 0 _ hjW
  have hjC := getJob_updateJobStatus_self _ jobId "completed"
    { message := some "No new followers to process" } (o.nowIso 0) _ hjT
  refine ⟨?_, ?_, ?_⟩
  · simp [processFollowersPhase, hdisc]
  · simp [processFollowersPhase, hdisc]
  · have hstore : (processFollowersPhase o scan jobId accountOwner collection s).store =
        (updateJobStatus (setTotalFollowers (updateJobStatus s jobId "warning"
            { warning := some "Notification check failed, process may be incomplete" }
            (o.nowIso 0)).1 jobId 0).1 jobId "completed"
          { message := some "No new followers to process" } (o.nowIso 0)).1 := by
      simp [processFollowersPhase, hdisc]
    rw [hstore]
    refine ⟨_, hjC, ?_, ?_, ?_, ?_, ?_⟩
    · simp [applyPatch]
    · simp [applyPatch]
    · simp [applyPatch]
    · simp [applyPatch, he]
    · simp [applyPatch]

/-- Witness for C6 on a concrete always-failing scan against a fresh
one-job store. -/
theorem c6_discovery_retry_exhaustion_witness :
    ((fun _ : Nat => (.error "scan failed" : Except String (List String))) 0 = .error "scan failed"
      ∧ getJob (createJob [] "p" "j1" 0) "j1" = some (initialJob "p" "j1" 0)
      ∧ (initialJob "p" "j1" 0).error = none)
    ∧ (processFollowersPhase
        { drop := fun _ => false, dropAfter := fun _ => false
          reconnectOk := fun _ => false, reconnectErr := fun _ => ""
          sendMs := fun _ => 0, send := fun _ => .ok true
          rand := fun _ => 0, insertFail := fun _ => false, nowIso := fun _ => 0 }
        (fun _ => .error "scan failed") "j1" "A" none (createJob [] "p" "j1" 0)).thrown = none
    ∧ (processFollowersPhase
        { drop := fun _ => false, dropAfter := fun _ => false
          reconnectOk := fun _ => false, reconnectErr := fun _ => ""
          sendMs := fun _ => 0, send := fun _ => .ok true
          rand := fun _ => 0, insertFail := fun _ => false, nowIso := fun _ => 0 }
        (fun _ => .error "scan failed") "j1" "A" none (createJob [] "p" "j1" 0)).trace =
        [Ev.sleep 10000, Ev.sleep 10000, Ev.status "warning", Ev.status "completed"]
    ∧ ∃ j2, getJob (processFollowersPhase
        { drop := fun _ => false, dropAfter := fun _ => false
          reconnectOk := fun _ => false, reconnectErr := fun _ => ""
          sendMs := fun _ => 0, send := fun _ => .ok true
          rand := fun _ => 0, insertFail := fun _ => false, nowIso := fun _ => 0 }
        (fun _ => .error "scan failed") "j1" "A" none (createJob [] "p" "j1" 0)).store "j1" = some j2
        ∧ j2.status = "completed"
        ∧ j2.message = some "No new followers to process"
        ∧ j2.warning = some "Notification check failed, process may be incomplete"
        ∧ j2.error = none
        ∧ j2.progress = { total := 0, processed := (initialJob "p" "j1" 0).progress.processed } :=
  ⟨⟨rfl, by decide, by decide⟩,
    c6_discovery_retry_exhaustion _ _ "j1" "A" none (createJob [] "p" "j1" 0)
      (initialJob "p" "j1" 0) ⟨"scan failed", rfl⟩ ⟨"scan failed", rfl⟩ ⟨"scan failed", rfl⟩
      (by decide) (by decide)⟩

/-! Shared lemmas about traces and the delivery loop. -/

theorem statusesOf_append (l1 l2 : List Ev) :
    statusesOf (l1 ++ l2) = statusesOf l1 ++ statusesOf l2 := by
  simp [statusesOf]

theorem sleepsOf_append (l1 l2 : List Ev) :
    sleepsOf (l1 ++ l2) = sleepsOf l1 ++ sleepsOf l2 := by
  simp [sleepsOf]

theorem statusesOf_sleep (ms : Nat) : statusesOf [Ev.sleep ms] = [] := rfl

theorem statusesOf_status (s : String) : statusesOf [Ev.status s] = [s] := rfl

theorem sleepsOf_sleep (ms : Nat) : sleepsOf [Ev.sleep ms] = [ms] := rfl

theorem sleepsOf_status (s : String) : sleepsOf [Ev.status s] = [] := rfl

theorem lastD_append (l1 l2 : List String) :
    ∀ d, lastD d (l1 ++ l2) = lastD (lastD d l1) l2 := by
  induction l1 with
  | nil => intro d; rfl
  | cons a t ih => intro d; exact ih a

theorem reconnPreceded_append (l1 l2 : List String) :
    ∀ prev, reconnPreceded prev (l1 ++ l2) =
      (reconnPreceded prev l1 && reconnPreceded (lastD prev l1) l2) := by
  induction l1 with
  | nil => intro prev; simp [reconnPreceded, lastD]
  | cons a t ih =>
      intro prev
      show ((a != "reconnecting" || prev == "sending_messages") && reconnPreceded a (t ++ l2)) =
        (((a != "reconnecting" || prev == "sending_messages") && reconnPreceded a t) &&
          reconnPreceded (lastD a t) l2)
      rw [ih a, Bool.and_assoc]

theorem reconnPreceded_of_not_mem (l : List String) (h : "reconnecting" ∉ l) :
    ∀ prev, reconnPreceded prev l = true := by
  induction l with
  | nil => intro prev; rfl
  | cons a t ih =>
      intro prev
      have ha : a ≠ "reconnecting" := fun hc => h (hc ▸ List.mem_cons_self a t)
      have ht : "reconnecting" ∉ t := fun hc => h (List.mem_cons_of_mem a hc)
      simp [reconnPreceded, ih ht, ha]

theorem classifyMain_trace (o : DriverOracle) (i : Nat) (jobId accountOwner u : String)
    (st : LoopState) : (classifyMain o i jobId accountOwner u st).trace = st.trace := by
  cases h : raceSend o i with
  | ok b => cases b <;> simp [classifyMain, h]
  | error m => simp [classifyMain, h]

theorem classifyReconn_trace (o : DriverOracle) (i : Nat) (jobId accountOwner u : String)
    (st : LoopState) : (classifyReconn o i jobId accountOwner u st).trace = st.trace := by
  cases h : raceSend o i with
  | ok b => cases b <;> simp [classifyReconn, h]
  | error m => simp [classifyReconn, h]

theorem classifyReconn_connected (o : DriverOracle) (i : Nat) (jobId accountOwner u : String)
    (st : LoopState) : (classifyReconn o i jobId accountOwner u st).connected = st.connected := by
  cases h : raceSend o i with
  | ok b => cases b <;> simp [classifyReconn, h]
  | error m => simp [classifyReconn, h]

theorem reconnPreceded_single_not (prev x : String) (hx : (x != "reconnecting") = true) :
    reconnPreceded prev [x] = true := by
  simp [reconnPreceded, hx]

theorem loopStep_trace_ok (o : DriverOracle) (jobId accountOwner : String) (total i : Nat)
    (u : String) (st : LoopState)
    (hok : reconnPreceded "" (statusesOf st.trace) = true)
    (hlast : lastD "" (statusesOf st.trace) = "sending_messages") :
    (match loopStep o jobId accountOwner total i u st with
      | .next st1 => reconnPreceded "" (statusesOf st1.trace) = true
          ∧ lastD "" (statusesOf st1.trace) = "sending_messages"
      | .aborted st1 _ => reconnPreceded "" (statusesOf st1.trace) = true) := by
  by_cases hc : (st.connected && !(o.drop i)) = true
  · have htr := classifyMain_trace o i jobId accountOwner u { st with connected := true }
    simp only [loopStep, hc, eq_self_iff_true, if_true]
    refine ⟨?_, ?_⟩
    · simp only [statusesOf_append, htr]
      simpa [statusesOf, reconnPreceded_append] using hok
    · simp only [statusesOf_append, htr]
      simpa [statusesOf, lastD_append] using hlast
  · have hcf : (st.connected && !(o.drop i)) = false := by
      simpa using hc
    cases hro : o.reconnectOk i with
    | true =>
        have htr := classifyReconn_trace o i jobId accountOwner u
          { store := (updateJobStatus (updateJobStatus st.store jobId "reconnecting"
                { warning := some "Connection to browser lost, attempting to reconnect..." }
                (o.nowIso i)).1 jobId "sending_messages"
                { info := some "Reconnected successfully, continuing message sending" }
                (o.nowIso i)).1
            records := st.records, connected := true
            processedUsers := st.processedUsers, failedUsers := st.failedUsers
            trace := (st.trace ++ [Ev.status "reconnecting"]) ++ [Ev.status "sending_messages"] }
        simp only [loopStep, hcf, Bool.false_eq_true, if_false, hro, if_true]
        refine ⟨?_, ?_⟩
        · rw [htr]
          simp only [List.append_assoc, statusesOf_append, statusesOf_status]
          rw [reconnPreceded_append]
          simp only [hok, Bool.true_and, hlast]
          decide
        · rw [htr]
          simp only [List.append_assoc, statusesOf_append, statusesOf_status]
          rw [lastD_append]
          rw [hlast]
          rfl
    | false =>
        simp only [loopStep, hcf, Bool.false_eq_true, if_false, hro]
        simp only [List.append_assoc, statusesOf_append, statusesOf_status]
        rw [reconnPreceded_append]
        simp only [hok, Bool.true_and, hlast]
        decide

theorem runLoop_trace_ok (o : DriverOracle) (jobId accountOwner : String) (total : Nat) :
    ∀ (cands : List String) (i : Nat) (st : LoopState),
      reconnPreceded "" (statusesOf st.trace) = true →
      lastD "" (statusesOf st.trace) = "sending_messages" →
      reconnPreceded "" (statusesOf (runLoop o jobId accountOwner total i cands st).1.trace) = true := by
  intro cands
  induction cands with
  | nil => intro i st hok hlast; simpa [runLoop] using hok
  | cons u rest ih =>
      intro i st hok hlast
      have hsplit := loopStep_trace_ok o jobId accountOwner total i u st hok hlast
      cases hstep : loopStep o jobId accountOwner total i u st with
      | next st1 =>
          rw [hstep] at hsplit
          simpa [runLoop, hstep] using ih (i + 1) st1 hsplit.1 hsplit.2
      | aborted st1 m =>
          rw [hstep] at hsplit
          simpa [runLoop, hstep] using hsplit

theorem sendingPhase_trace_ok (o : DriverOracle) (jobId accountOwner : String)
    (newFollowers : List String) (st0 : LoopState)
    (hok : reconnPreceded "" (statusesOf st0.trace) = true)
    (hlast : lastD "" (statusesOf st0.trace) = "sending_messages") :
    reconnPreceded ""
      (statusesOf (sendingPhase o jobId accountOwner newFollowers st0).trace) = true := by
  have hloop := runLoop_trace_ok o jobId accountOwner newFollowers.length newFollowers 0 st0
    hok hlast
  cases hout : (runLoop o jobId accountOwner newFollowers.length 0 newFollowers st0).2 with
  | none =>
      simp only [sendingPhase, hout, statusesOf_append, statusesOf_status]
      rw [reconnPreceded_append, Bool.and_eq_true]
      exact ⟨hloop, reconnPreceded_single_not _ _ (by decide)⟩
  | some m =>
      simp only [sendingPhase, hout, statusesOf_append, statusesOf_status]
      rw [reconnPreceded_append, Bool.and_eq_true]
      exact ⟨hloop, reconnPreceded_single_not _ _ (by decide)⟩

theorem checkNotifAttempts_statuses (scan : Nat → Except String (List String))
    (jobId : String) (tW : Nat) :
    ∀ (fuel a : Nat) (s : JobStore) (evs : List Ev),
      ∃ tail, (checkNotifAttempts scan jobId tW a fuel s evs).2.2 = evs ++ tail
        ∧ (statusesOf tail = [] ∨ statusesOf tail = ["warning"]) := by
  intro fuel
  induction fuel with
  | zero =>
      intro a s evs
      exact ⟨[], by simp [checkNotifAttempts], Or.inl rfl⟩
  | succ n ih =>
      intro a s evs
      cases hscan : scan a with
      | ok fs => exact ⟨[], by simp [checkNotifAttempts, hscan], Or.inl rfl⟩
      | error e =>
          by_cases hlt : a + 1 < 3
          · obtain ⟨tail, htail, hst⟩ := ih (a + 1) s (evs ++ [Ev.sleep 10000])
            refine ⟨[Ev.sleep 10000] ++ tail, ?_, ?_⟩
            · simp only [checkNotifAttempts, hscan, hlt, if_true]
              simpa using htail
            · simpa [statusesOf_append] using hst
          · refine ⟨[Ev.status "warning"], ?_, Or.inr rfl⟩
            simp [checkNotifAttempts, hscan, hlt]

theorem processFollowersPhase_noBadReconn (o : DriverOracle)
    (scan : Nat → Except String (List String)) (jobId accountOwner : String)
    (collection : Option (List ProcessedRecord)) (s : JobStore) :
    noBadReconn (statusesOf
      (processFollowersPhase o scan jobId accountOwner collection s).trace) = true := by
  obtain ⟨tail, htail, hst⟩ := checkNotifAttempts_statuses scan jobId (o.nowIso 0) 3 0 s []
  simp only [noBadReconn, processFollowersPhase, htail, List.nil_append]
  cases hemp : (checkNotifAttempts scan jobId (o.nowIso 0) 0 3 s []).1.isEmpty with
  | true =>
      simp only [hemp, eq_self_iff_true, if_true]
      rcases hst with h | h <;>
        · simp only [statusesOf_append, statusesOf_status, h]
          decide
  | false =>
      simp only [hemp, Bool.false_eq_true, if_false]
      apply sendingPhase_trace_ok
      · rcases hst with h | h <;>
          · simp only [statusesOf_append, statusesOf_status, h]
            decide
      · rcases hst with h | h <;>
          · simp only [statusesOf_append, statusesOf_status, h]
            rfl

/-! C1: failed attempts consume the candidate. -/

/-- C1.  On the main path of the delivery loop (session connected), an
attempt whose raced outcome is not a success — a soft failure, a thrown
error, or an attempt that exceeds the two-minute timer, which the race
converts into the timeout error — still consumes the candidate: the loop
proceeds with `.next`, appends to `failedUsers` exactly one entry for the
candidate carrying a failure detail (a `reason` or an `error`), advances
`progress.processed` by one just as a success would, leaves
`processedUsers` unchanged, and writes a Processed Record for the
candidate whenever a store is configured and the best-effort insert does
not error. -/
theorem c1_failed_attempt_consumes_candidate (o : DriverOracle)
    (jobId accountOwner : String) (total i : Nat) (u : String) (st : LoopState) (j : Job)
    (hconn : st.connected = true) (hdrop : o.drop i = false)
    (hfail : raceSend o i ≠ .ok true) (hj : getJob st.store jobId = some j) :
    (120000 < o.sendMs i → raceSend o i = .error "Message sending timeout")
    ∧ ∃ st1, loopStep o jobId accountOwner total i u st = .next st1
      ∧ st1.processedUsers = st.processedUsers
      ∧ ∃ ud, ud.username = u
        ∧ (ud.reason.isSome = true ∨ ud.error.isSome = true)
        ∧ st1.failedUsers = st.failedUsers ++ [ud]
        ∧ (∃ j2, getJob st1.store jobId = some j2
            ∧ j2.progress.processed = j.progress.processed + 1
            ∧ j2.failedUsers = j.failedUsers ++ [ud]
            ∧ j2.processedUsers = j.processedUsers)
        ∧ (∀ recs, st.records = some recs → o.insertFail u = false →
            st1.records = some (recs ++ [⟨u, accountOwner, o.nowIso i⟩])) := by
  have hc : (st.connected && !(o.drop i)) = true := by rw [hconn, hdrop]; rfl
  refine ⟨fun h => by simp [raceSend, h], ?_⟩
  simp only [loopStep, hc, eq_self_iff_true, if_true]
  refine ⟨_, rfl, ?_⟩
  cases hr : raceSend o i with
  | ok b =>
      cases b with
      | true => exact absurd hr hfail
      | false =>
          have hadd := getJob_addFailedUser_self st.store jobId
            { username := u, status := "failed", timestamp := o.nowIso i
              reason := some "Message sending failed" } j hj
          refine ⟨by simp [classifyMain, hr],
            { username := u, status := "failed", timestamp := o.nowIso i
              reason := some "Message sending failed" },
            rfl, Or.inl rfl, by simp [classifyMain, hr], ?_, ?_⟩
          · simp only [classifyMain, hr]
            exact ⟨_, hadd, rfl, rfl, rfl⟩
          · intro recs hrecs hins
            simp [classifyMain, hr, markUserAsProcessed, hrecs, hins]
  | error m =>
      have hadd := getJob_addFailedUser_self st.store jobId
        { username := u, status := "failed", timestamp := o.nowIso i
          error := some m } j hj
      refine ⟨by simp [classifyMain, hr],
        { username := u, status := "failed", timestamp := o.nowIso i, error := some m },
        rfl, Or.inr rfl, by simp [classifyMain, hr], ?_, ?_⟩
      · simp only [classifyMain, hr]
        exact ⟨_, hadd, rfl, rfl, rfl⟩
      · intro recs hrecs hins
        simp [classifyMain, hr, markUserAsProcessed, hrecs, hins]

/-- Environment oracle in which every send attempt resolves quickly to a
soft failure and nothing else goes wrong. -/
def softFailOracle : DriverOracle where
  drop := fun _ => false
  dropAfter := fun _ => false
  reconnectOk := fun _ => false
  reconnectErr := fun _ => "refused"
  sendMs := fun _ => 0
  send := fun _ => .ok false
  rand := fun _ => 0
  insertFail := fun _ => false
  nowIso := fun _ => 0

/-- Connected start state of the delivery loop over a fresh one-job store
with an empty configured record store. -/
def startState : LoopState where
  store := createJob [] "p" "j1" 0
  records := some []
  connected := true
  processedUsers := []
  failedUsers := []
  trace := []

/-- Witness for C1: a soft failure on a connected session at a concrete
one-job store with an empty configured record store. -/
theorem c1_failed_attempt_consumes_candidate_witness :
    (startState.connected = true
      ∧ softFailOracle.drop 0 = false
      ∧ raceSend softFailOracle 0 ≠ .ok true
      ∧ getJob startState.store "j1" = some (initialJob "p" "j1" 0))
    ∧ ((120000 < softFailOracle.sendMs 0 →
          raceSend softFailOracle 0 = .error "Message sending timeout")
      ∧ ∃ st1, loopStep softFailOracle "j1" "A" 1 0 "u" startState = .next st1
        ∧ st1.processedUsers = startState.processedUsers
        ∧ ∃ ud, ud.username = "u"
          ∧ (ud.reason.isSome = true ∨ ud.error.isSome = true)
          ∧ st1.failedUsers = startState.failedUsers ++ [ud]
          ∧ (∃ j2, getJob st1.store "j1" = some j2
              ∧ j2.progress.processed = (initialJob "p" "j1" 0).progress.processed + 1
              ∧ j2.failedUsers = (initialJob "p" "j1" 0).failedUsers ++ [ud]
              ∧ j2.processedUsers = (initialJob "p" "j1" 0).processedUsers)
          ∧ (∀ recs, startState.records = some recs → softFailOracle.insertFail "u" = false →
              st1.records = some (recs ++ [⟨"u", "A", softFailOracle.nowIso 0⟩]))) :=
  ⟨⟨rfl, rfl, by simp [raceSend, softFailOracle], by decide⟩,
    c1_failed_attempt_consumes_candidate softFailOracle "j1" "A" 1 0 "u" startState
      (initialJob "p" "j1" 0) rfl rfl (by simp [raceSend, softFailOracle]) (by decide)⟩

/-! C4: the reconnection supervisor. -/

/-- C4.  First, over every whole run, each `reconnecting` status entry is
immediately preceded by `sending_messages` (so `reconnecting` is entered
only from `sending_messages`), and an iteration whose liveness check sees
a connected session emits no status event at all.  Second, when the
session is found disconnected and reconnection succeeds, the loop proceeds
with `.next`, the current candidate is still attempted (it lands in
`processedUsers` or `failedUsers`), the job status returns to
`sending_messages` and the session is connected again.  Third, when
reconnection fails, the job transitions to `failed` with an error message
carrying the count of completed candidates and the count of remaining
unprocessed candidates, and the loop aborts with that partial-completion
message. -/
theorem c4_reconnecting_protocol :
    (∀ (o : DriverOracle) (scan : Nat → Except String (List String))
        (jobId accountOwner : String) (collection : Option (List ProcessedRecord))
        (s : JobStore),
      noBadReconn (statusesOf
        (processFollowersPhase o scan jobId accountOwner collection s).trace) = true)
    ∧ (∀ (o : DriverOracle) (jobId accountOwner : String) (total i : Nat) (u : String)
        (st : LoopState), (st.connected && !(o.drop i)) = true →
        ∀ st1, loopStep o jobId accountOwner total i u st = .next st1 →
          statusesOf st1.trace = statusesOf st.trace)
    ∧ (∀ (o : DriverOracle) (jobId accountOwner : String) (total i : Nat) (u : String)
        (st : LoopState) (j : Job), (st.connected && !(o.drop i)) = false →
        o.reconnectOk i = true → getJob st.store jobId = some j →
        ∃ st1, loopStep o jobId accountOwner total i u st = .next st1
          ∧ st1.connected = true
          ∧ statusesOf st1.trace = statusesOf st.trace ++ ["reconnecting", "sending_messages"]
          ∧ (∃ ud, ud.username = u
              ∧ (st1.processedUsers = st.processedUsers ++ [ud]
                ∨ st1.failedUsers = st.failedUsers ++ [ud]))
          ∧ (∃ j2, getJob st1.store jobId = some j2 ∧ j2.status = "sending_messages"))
    ∧ (∀ (o : DriverOracle) (jobId accountOwner : String) (total i : Nat) (u : String)
        (st : LoopState) (j : Job), (st.connected && !(o.drop i)) = false →
        o.reconnectOk i = false → getJob st.store jobId = some j →
        ∃ st1, loopStep o jobId accountOwner total i u st =
            .aborted st1 ("Process interrupted after " ++
              toString st.processedUsers.length ++ " successful messages. " ++
              toString (total - i) ++ " followers were not processed.")
          ∧ st1.processedUsers = st.processedUsers
          ∧ (∃ j2, getJob st1.store jobId = some j2 ∧ j2.status = "failed"
              ∧ j2.error = some ("Connection error: " ++ o.reconnectErr i ++ ". " ++
                  ("Process interrupted after " ++ toString st.processedUsers.length ++
                    " successful messages. " ++ toString (total - i) ++
                    " followers were not processed.")))) := by
  refine ⟨processFollowersPhase_noBadReconn, ?_, ?_, ?_⟩
  · intro o jobId accountOwner total i u st hc st1 hstep
    simp only [loopStep, hc, eq_self_iff_true, if_true] at hstep
    cases hstep
    rw [statusesOf_append, classifyMain_trace]
    simp [statusesOf]
  · intro o jobId accountOwner total i u st j hcf hro hj
    have hj1 := getJob_updateJobStatus_self st.store jobId "reconnecting"
      { warning := some "Connection to browser lost, attempting to reconnect..." }
      (o.nowIso i) j hj
    have hj2 := getJob_updateJobStatus_self _ jobId "sending_messages"
      { info := some "Reconnected successfully, continuing message sending" }
      (o.nowIso i) _ hj1
    simp only [loopStep, hcf, Bool.false_eq_true, if_false, hro, if_true]
    refine ⟨_, rfl, ?_, ?_, ?_, ?_⟩
    · rw [classifyReconn_connected]
    · rw [classifyReconn_trace]
      simp [statusesOf_append, statusesOf]
    · cases hr : raceSend o i with
      | ok b =>
          cases b with
          | true =>
              exact ⟨{ username := u, status := "success", timestamp := o.nowIso i },
                rfl, Or.inl (by simp [classifyReconn, hr])⟩
          | false =>
              exact ⟨{ username := u, status := "failed", timestamp := o.nowIso i,
                       reason := some "Message sending failed after reconnection" },
                rfl, Or.inr (by simp [classifyReconn, hr])⟩
      | error m =>
          exact ⟨{ username := u, status := "failed", timestamp := o.nowIso i,
                   error := some m },
            rfl, Or.inr (by simp [classifyReconn, hr])⟩
    · cases hr : raceSend o i with
      | ok b =>
          cases b with
          | true =>
              have hadd := getJob_addProcessedUser_self _ jobId
                { username := u, status := "success", timestamp := o.nowIso i } _ hj2
              simp only [classifyReconn, hr]
              exact ⟨_, hadd, by simp [applyPatch]⟩
          | false =>
              have hadd := getJob_addFailedUser_self _ jobId
                { username := u, status := "failed", timestamp := o.nowIso i
                  reason := some "Message sending failed after reconnection" } _ hj2
              simp only [classifyReconn, hr]
              exact ⟨_, hadd, by simp [applyPatch]⟩
      | error m =>
          have hadd := getJob_addFailedUser_self _ jobId
            { username := u, status := "failed", timestamp := o.nowIso i
              error := some m } _ hj2
          simp only [classifyReconn, hr]
          exact ⟨_, hadd, by simp [applyPatch]⟩
  · intro o jobId accountOwner total i u st j hcf hro hj
    have hj1 := getJob_updateJobStatus_self st.store jobId "reconnecting"
      { warning := some "Connection to browser lost, attempting to reconnect..." }
      (o.nowIso i) j hj
    have hjf := getJob_failJob_self _ jobId
      ("Connection error: " ++ o.reconnectErr i ++ ". " ++
        ("Process interrupted after " ++ toString st.processedUsers.length ++
          " successful messages. " ++ toString (total - i) ++
          " followers were not processed."))
      (o.nowIso i) _ hj1
    simp only [loopStep, hcf, Bool.false_eq_true, if_false, hro]
    exact ⟨_, rfl, rfl, ⟨_, hjf, rfl, rfl⟩⟩

/-- Disconnecting start state: same as `startState` but with the session
already lost. -/
def droppedState : LoopState :=
  { startState with connected := false }

/-- Oracle whose reconnection attempts succeed and whose sends succeed. -/
def reconnectOkOracle : DriverOracle :=
  { softFailOracle with reconnectOk := fun _ => true, send := fun _ => .ok true }

/-- Witness for C4, covering all four conjuncts: a full concrete run for
the trace property, a connected step, a disconnected step with successful
reconnection, and a disconnected step with failed reconnection. -/
theorem c4_reconnecting_protocol_witness :
    (noBadReconn (statusesOf (processFollowersPhase reconnectOkOracle
        (fun _ => .ok ["u"]) "j1" "A" none (createJob [] "p" "j1" 0)).trace) = true)
    ∧ ((startState.connected && !(softFailOracle.drop 0)) = true
      ∧ ∀ st1, loopStep softFailOracle "j1" "A" 1 0 "u" startState = .next st1 →
          statusesOf st1.trace = statusesOf startState.trace)
    ∧ ((droppedState.connected && !(reconnectOkOracle.drop 0)) = false
      ∧ reconnectOkOracle.reconnectOk 0 = true
      ∧ ∃ st1, loopStep reconnectOkOracle "j1" "A" 1 0 "u" droppedState = .next st1
        ∧ st1.connected = true
        ∧ statusesOf st1.trace =
            statusesOf droppedState.trace ++ ["reconnecting", "sending_messages"]
        ∧ (∃ ud, ud.username = "u"
            ∧ (st1.processedUsers = droppedState.processedUsers ++ [ud]
              ∨ st1.failedUsers = droppedState.failedUsers ++ [ud]))
        ∧ (∃ j2, getJob st1.store "j1" = some j2 ∧ j2.status = "sending_messages"))
    ∧ ((droppedState.connected && !(softFailOracle.drop 0)) = false
      ∧ softFailOracle.reconnectOk 0 = false
      ∧ ∃ st1, loopStep softFailOracle "j1" "A" 1 0 "u" droppedState =
          .aborted st1 ("Process interrupted after " ++
            toString droppedState.processedUsers.length ++ " successful messages. " ++
            toString (1 - 0) ++ " followers were not processed.")
        ∧ st1.processedUsers = droppedState.processedUsers
        ∧ (∃ j2, getJob st1.store "j1" = some j2 ∧ j2.status = "failed"
            ∧ j2.error = some ("Connection error: " ++ softFailOracle.reconnectErr 0 ++ ". " ++
                ("Process interrupted after " ++ toString droppedState.processedUsers.length ++
                  " successful messages. " ++ toString (1 - 0) ++
                  " followers were not processed.")))) :=
  ⟨c4_reconnecting_protocol.1 reconnectOkOracle (fun _ => .ok ["u"]) "j1" "A" none
      (createJob [] "p" "j1" 0),
    ⟨rfl, fun st1 h => c4_reconnecting_protocol.2.1 softFailOracle "j1" "A" 1 0 "u"
      startState rfl st1 h⟩,
    ⟨rfl, rfl, c4_reconnecting_protocol.2.2.1 reconnectOkOracle "j1" "A" 1 0 "u"
      droppedState (initialJob "p" "j1" 0) rfl rfl (by decide)⟩,
    ⟨rfl, rfl, c4_reconnecting_protocol.2.2.2 softFailOracle "j1" "A" 1 0 "u"
      droppedState (initialJob "p" "j1" 0) rfl rfl (by decide)⟩⟩

/-! C9: inter-candidate pacing. -/

/-- Oracle whose send attempts throw a connectivity-signature error. -/
def connErrOracle : DriverOracle :=
  { softFailOracle with send := fun _ => .error "connection" }

/-- Oracle that reports the session dropped at every liveness check and
reconnects successfully, with successful sends. -/
def dropReconnectOracle : DriverOracle :=
  { softFailOracle with
    drop := fun _ => true
    reconnectOk := fun _ => true
    send := fun _ => .ok true }

/-- C9 counterexample.  The claim ties the shortened pacing interval to
having just reconnected.  On the code: in the first concrete run the loop
never reconnects (no `reconnecting` status is ever set), yet after a
connectivity-classified failure it sleeps the fixed 3000 ms, which is
below the 5000 ms minimum of the randomized range `5000 + rand 5000` the
claim requires for a loop that has not just reconnected; in the second
concrete run the loop does reconnect and then sleeps no pacing interval
at all (the `continue` after the reconnect branch skips the delay), so no
shortened interval is used either. -/
theorem c9_pacing_counterexample :
    (sleepsOf (processFollowersPhase connErrOracle (fun _ => .ok ["u"]) "j1" "A" none
        (createJob [] "p" "j1" 0)).trace = [3000]
      ∧ "reconnecting" ∉ statusesOf (processFollowersPhase connErrOracle
        (fun _ => .ok ["u"]) "j1" "A" none (createJob [] "p" "j1" 0)).trace
      ∧ 3000 < 5000)
    ∧ (sleepsOf (processFollowersPhase dropReconnectOracle (fun _ => .ok ["u"]) "j1" "A" none
        (createJob [] "p" "j1" 0)).trace = []
      ∧ "reconnecting" ∈ statusesOf (processFollowersPhase dropReconnectOracle
        (fun _ => .ok ["u"]) "j1" "A" none (createJob [] "p" "j1" 0)).trace) := by
  decide

/-- C9 as amended.  After a candidate handled on the main path the loop
sleeps `5000 + rand % 5000` ms — within `[5000, 10000)` — when the session
is still connected at the bottom of the iteration, and a fixed shortened
`3000` ms when the attempt failed with a connectivity-classified error
(the session is then marked disconnected and reconnection happens at the
start of the next iteration, not before the delay); a candidate handled
inside the reconnection branch — right after reconnecting — is followed by
no pacing delay at all. -/
theorem c9_pacing_amended :
    (∀ (o : DriverOracle) (jobId accountOwner : String) (total i : Nat) (u : String)
        (st : LoopState), st.connected = true → o.drop i = false → o.dropAfter i = false →
        (∀ m, raceSend o i = .error m → isConnectivityError m = false) →
        ∃ st1, loopStep o jobId accountOwner total i u st = .next st1
          ∧ sleepsOf st1.trace = sleepsOf st.trace ++ [5000 + o.rand i % 5000]
          ∧ 5000 ≤ 5000 + o.rand i % 5000
          ∧ 5000 + o.rand i % 5000 < 10000)
    ∧ (∀ (o : DriverOracle) (jobId accountOwner : String) (total i : Nat) (u : String)
        (st : LoopState) (m : String), st.connected = true → o.drop i = false →
        raceSend o i = .error m → isConnectivityError m = true →
        ∃ st1, loopStep o jobId accountOwner total i u st = .next st1
          ∧ sleepsOf st1.trace = sleepsOf st.trace ++ [3000]
          ∧ st1.connected = false)
    ∧ (∀ (o : DriverOracle) (jobId accountOwner : String) (total i : Nat) (u : String)
        (st : LoopState), (st.connected && !(o.drop i)) = false → o.reconnectOk i = true →
        ∃ st1, loopStep o jobId accountOwner total i u st = .next st1
          ∧ sleepsOf st1.trace = sleepsOf st.trace) := by
  refine ⟨?_, ?_, ?_⟩
  · intro o jobId accountOwner total i u st hconn hdrop hdropAfter houtcome
    have hc : (st.connected && !(o.drop i)) = true := by rw [hconn, hdrop]; rfl
    have hcm : (classifyMain o i jobId accountOwner u { st with connected := true }).connected
        = true := by
      cases hr : raceSend o i with
      | ok b => cases b <;> simp [classifyMain, hr]
      | error m => simp [classifyMain, hr, houtcome m hr]
    simp only [loopStep, hc, eq_self_iff_true, if_true]
    refine ⟨_, rfl, ?_, Nat.le_add_right 5000 _, ?_⟩
    · rw [sleepsOf_append, classifyMain_trace]
      simp [sleepsOf, hcm, hdropAfter]
    · have := Nat.mod_lt (o.rand i) (show (0 : Nat) < 5000 by norm_num)
      omega
  · intro o jobId accountOwner total i u st m hconn hdrop hr hcm
    have hc : (st.connected && !(o.drop i)) = true := by rw [hconn, hdrop]; rfl
    have hcf : (classifyMain o i jobId accountOwner u { st with connected := true }).connected
        = false := by
      simp [classifyMain, hr, hcm]
    simp only [loopStep, hc, eq_self_iff_true, if_true]
    refine ⟨_, rfl, ?_, ?_⟩
    · rw [sleepsOf_append, classifyMain_trace]
      simp [sleepsOf, hcf]
    · simp [hcf]
  · intro o jobId accountOwner total i u st hcf hro
    simp only [loopStep, hcf, Bool.false_eq_true, if_false, hro, if_true]
    refine ⟨_, rfl, ?_⟩
    rw [classifyReconn_trace]
    simp [sleepsOf_append, sleepsOf]

/-- Witness for C9 as amended: the full-range delay after a soft failure,
the shortened 3000 ms delay after a connectivity-classified error, and
the missing delay after a reconnection, all at concrete inputs. -/
theorem c9_pacing_amended_witness :
    ((startState.connected = true ∧ softFailOracle.drop 0 = false
        ∧ softFailOracle.dropAfter 0 = false)
      ∧ ∃ st1, loopStep softFailOracle "j1" "A" 1 0 "u" startState = .next st1
        ∧ sleepsOf st1.trace = sleepsOf startState.trace ++ [5000 + softFailOracle.rand 0 % 5000]
        ∧ 5000 ≤ 5000 + softFailOracle.rand 0 % 5000
        ∧ 5000 + softFailOracle.rand 0 % 5000 < 10000)
    ∧ ((raceSend connErrOracle 0 = .error "connection"
        ∧ isConnectivityError "connection" = true)
      ∧ ∃ st1, loopStep connErrOracle "j1" "A" 1 0 "u" startState = .next st1
        ∧ sleepsOf st1.trace = sleepsOf startState.trace ++ [3000]
        ∧ st1.connected = false)
    ∧ (((startState.connected && !(dropReconnectOracle.drop 0)) = false
        ∧ dropReconnectOracle.reconnectOk 0 = true)
      ∧ ∃ st1, loopStep dropReconnectOracle "j1" "A" 1 0 "u" startState = .next st1
        ∧ sleepsOf st1.trace = sleepsOf startState.trace) :=
  ⟨⟨⟨rfl, rfl, rfl⟩,
      c9_pacing_amended.1 softFailOracle "j1" "A" 1 0 "u" startState rfl rfl rfl
        (fun m hm => by simp [raceSend, softFailOracle] at hm)⟩,
    ⟨⟨rfl, by decide⟩,
      c9_pacing_amended.2.1 connErrOracle "j1" "A" 1 0 "u" startState "connection"
        rfl rfl rfl (by decide)⟩,
    ⟨⟨rfl, rfl⟩,
      c9_pacing_amended.2.2 dropReconnectOracle "j1" "A" 1 0 "u" startState rfl rfl⟩⟩

end Autowelcome
